import Mathlib

set_option maxHeartbeats 1000000

/-!
Shallow embedding of the aggregation core of `src/main.py` (a Telegram bot
querying public Roblox-family APIs and the Rolimons valuation service),
together with theorems settling the specification's claims about it.

Conventions of the embedding:
* Python strings are embedded as `List Char`.
* Python `int` is `Int` (arbitrary precision); the classification functions
  carry HTTP statuses as `Nat`.
* JSON dictionaries that the code reads by key are embedded as association
  lists; `dict.get` is a first-match lookup.
* Fallible code (a path that raises in Python) returns `Option`/`Except`.
* Network I/O is abstracted by passing the sequence of upstream responses
  (or the single response) as an explicit argument, in the order the code
  would observe them.
-/

/- ===== esc (main.py lines 56-57) =====
`def esc(t): return t.replace("&","&amp;").replace("<","&lt;").replace(">","&gt;")`
Each pattern is a single character, so each `str.replace` pass is the
character-wise substitution `replaceChar`. -/

/-- Replacement text for the ampersand pass of `esc`. -/
def ampRep : List Char := ['&', 'a', 'm', 'p', ';']

/-- Replacement text for the less-than pass of `esc`. -/
def ltRep : List Char := ['&', 'l', 't', ';']

/-- Replacement text for the greater-than pass of `esc`. -/
def gtRep : List Char := ['&', 'g', 't', ';']

/-- Python `s.replace(pat, rep)` for a one-character pattern `pat`. -/
def replaceChar (s : List Char) (pat : Char) (rep : List Char) : List Char :=
  (s.map (fun c => if c = pat then rep else [c])).flatten

/-- The function esc from main.py lines 56-57: the three sequential single-character
replaces, ampersand first. -/
def esc (t : List Char) : List Char :=
  replaceChar (replaceChar (replaceChar t '&' ampRep) '<' ltRep) '>' gtRep

/- ===== parse_ids (main.py lines 59-66) ===== -/

/-- The whitespace characters recognized by Python's argumentless
`str.split()`. -/
def pyIsSpace (c : Char) : Bool :=
  c == ' ' || c == '\t' || c == '\n' || c == '\r' || c == '\x0B' || c == '\x0C'

/-- Worker for `wsTokens`: accumulates the current (reversed) token while
scanning, emitting it at each whitespace boundary; empty tokens are never
emitted, exactly like Python `str.split()` with no argument. -/
def wsTokensGo (cur : List Char) : List Char → List (List Char)
  | [] => if cur.isEmpty then [] else [cur.reverse]
  | c :: rest =>
    if pyIsSpace c then
      if cur.isEmpty then wsTokensGo [] rest
      else cur.reverse :: wsTokensGo [] rest
    else wsTokensGo (c :: cur) rest

/-- Python `s.split()` (split on whitespace runs, dropping empty tokens). -/
def wsTokens (s : List Char) : List (List Char) := wsTokensGo [] s

/-- Python `raw.replace(",", " ")` in `parse_ids`. -/
def commaToSpace (s : List Char) : List Char :=
  s.map (fun c => if c = ',' then ' ' else c)

/-- Python `p.isdigit()` for the ASCII tokens `parse_ids` deals with:
non-empty and all characters decimal digits. -/
def isDigitToken (t : List Char) : Bool :=
  !t.isEmpty && t.all (fun c => c.isDigit)

/-- Python `int(p)` on a digit-only token. -/
def natOfDigits (t : List Char) : Nat :=
  t.foldl (fun n c => 10 * n + (c.toNat - 48)) 0

/-- Python `int(p)` as the `Int` that enters the ids list. -/
def intOfDigits (t : List Char) : Int := (natOfDigits t : Int)

/-- The conditional append of one token (`if p.isdigit(): ids.append(int(p))`
in main.py lines 62-63). -/
def py_append (ids : List Int) (t : List Char) : List Int :=
  if isDigitToken t then ids ++ [intOfDigits t] else ids

/-- The token loop of `parse_ids` (main.py lines 61-65): conditionally append
each token, then test `len(ids) >= max_count` and break. The length test
runs after every token, after the conditional append. -/
def parse_ids_go (max_count : Nat) (ids : List Int) :
    List (List Char) → List Int
  | [] => ids
  | t :: rest =>
    if max_count ≤ (py_append ids t).length then py_append ids t
    else parse_ids_go max_count (py_append ids t) rest

/-- The function parse_ids from main.py lines 59-66. -/
def parse_ids (raw : List Char) (max_count : Nat) : List Int :=
  parse_ids_go max_count [] (wsTokens (commaToSpace raw))

/- ===== Transport classification =====
`RobloxAPI.req` (main.py lines 144-155) and `roli_get` (lines 329-338).
The parsed body (possibly `None` when JSON parsing failed) is `data`;
`Except.error s` embeds `raise RuntimeError` recording status `s`,
`Except.ok none` embeds returning `None` (the Absent outcome). -/

/-- Status classification of `RobloxAPI.req`: `404` returns `None` (Absent);
any other status at least `400` raises recording the status; otherwise the
parsed body is returned. -/
def req_classify {α : Type} (status : Nat) (data : Option α) :
    Except Nat (Option α) :=
  if status = 404 then Except.ok none
  else if 400 ≤ status then Except.error status
  else Except.ok data

/-- Status classification of `roli_get`: any status other than `200` raises
recording the status; otherwise the parsed body is returned. -/
def roli_classify {α : Type} (status : Nat) (data : Option α) :
    Except Nat (Option α) :=
  if status ≠ 200 then Except.error status
  else Except.ok data

/- ===== Valuation merge =====
The per-item loop of `compose_limiteds_text` (main.py lines 369-389). -/

/-- A collectible inventory record as the loop reads it:
`assetId`, `name`, and `recentAveragePrice` (absent embeds as `none`). -/
structure CollectibleItem where
  assetId : Int
  name : String
  recentAveragePrice : Option Int
deriving DecidableEq, Repr

/-- Python `it.get("recentAveragePrice") or 0`: `None` and `0` both give `0`,
any other integer passes through. -/
def rap_of (it : CollectibleItem) : Int :=
  match it.recentAveragePrice with
  | none => 0
  | some r => if r = 0 then 0 else r

/-- The Rolimons item catalog as cached by `roli_get_items`: a mapping from
the string form of the asset id to the item-detail array (the market value
sits at index 3). -/
abbrev Catalog : Type := List (String × List Int)

/-- Python `dict.get(key)` on the embedded catalog dictionary. -/
def dictGet : List (String × List Int) → String → Option (List Int)
  | [], _ => none
  | (k, v) :: rest, key => if k = key then some v else dictGet rest key

/-- The applied value of one item, from main.py lines 377-385:
`value = None`; when the catalog is non-empty, look up `str(aid)`; when the
entry is truthy, read `arr[3]` (raising `IndexError`, embedded as `none`,
when the entry is shorter); keep it when it is truthy and positive;
finally fall back to the item's RAP when `value` is still `None`. -/
def applied_value (roli_items : Catalog) (aid : Int) (rap : Int) :
    Option Int :=
  if roli_items.isEmpty then some rap
  else
    match dictGet roli_items (toString aid) with
    | none => some rap
    | some arr =>
      if arr.isEmpty then some rap
      else
        match arr[3]? with
        | none => none
        | some v => if v ≠ 0 ∧ 0 < v then some v else some rap

/-- The whole per-item loop of `compose_limiteds_text` (main.py lines
369-389): left-to-right over the fetched items, producing the holdings
(item paired with its applied value) in order, the RAP total and the value
total; `none` embeds the loop raising (an entry array too short). -/
def merge_items (roli_items : Catalog) :
    List CollectibleItem → Option (List (CollectibleItem × Int) × Int × Int)
  | [] => some ([], 0, 0)
  | it :: rest =>
    match applied_value roli_items it.assetId (rap_of it) with
    | none => none
    | some v =>
      match merge_items roli_items rest with
      | none => none
      | some (hs, tr, tv) => some ((it, v) :: hs, rap_of it + tr, v + tv)

/-- The catalog value of an asset as a partial mapping: the entry looked up
by the string form of the id, read at index 3.  Used to state the spec's
tie-break against the code. -/
def catalog_value (roli_items : Catalog) (aid : Int) : Option Int :=
  (dictGet roli_items (toString aid)).bind (fun arr => arr[3]?)

/-- The tie-break policy in the spec's words (spec section 4.5): if the
catalog has an entry for the item's assetId and that entry's value is
positive, use it; otherwise fall back to the item's own RAP. -/
def spec_tiebreak (roli_items : Catalog) (aid rap : Int) : Int :=
  match catalog_value roli_items aid with
  | some v => if 0 < v then v else rap
  | none => rap

/- ===== Paginated collector =====
`RobloxAPI.get_collectibles` (main.py lines 278-294).  The upstream is
abstracted as the finite list of responses the loop would observe, in
request order; each loop iteration issues one request and consumes the
next response. -/

/-- One upstream response to a collectibles page request, as `req` hands it
to the loop: `absent` is a falsy `data` (a 404's `None`, an unparseable
body, or an empty object); `err s` is `req` raising with status `s`;
`page data next` is a truthy object with its record list and its
`nextPageCursor` field (`none` when null or missing). -/
inductive PageResp (α : Type) where
  | absent : PageResp α
  | err : Nat → PageResp α
  | page : List α → Option String → PageResp α
deriving DecidableEq, Repr

/-- Outcome of the collection loop: `done` is a normal `break` returning the
accumulated items; `failed s` is the `RuntimeError` of `req` propagating out
of `get_collectibles` — it carries the status only, no items; `exhausted`
marks that the loop consumed every provided response and would issue yet
another request. -/
inductive CollectOutcome (α : Type) where
  | done : List α → CollectOutcome α
  | failed : Nat → CollectOutcome α
  | exhausted : List α → CollectOutcome α
deriving DecidableEq, Repr

/-- The records an outcome hands back to the caller: `failed` propagates an
exception that carries no records. -/
def recordsOf {α : Type} : CollectOutcome α → Option (List α)
  | CollectOutcome.done l => some l
  | CollectOutcome.failed _ => none
  | CollectOutcome.exhausted l => some l

/-- The `while True` loop of `get_collectibles` (main.py lines 283-293),
also counting the requests issued: on a falsy `data`, break; on a page,
extend `items` with `data.get("data", [])`, read `nextPageCursor`, and break
when it is falsy (null, missing or empty); otherwise loop.  A raising
request aborts the loop with the exception. -/
def collect_go {α : Type} (acc : List α) (n : Nat) :
    List (PageResp α) → CollectOutcome α × Nat
  | [] => (CollectOutcome.exhausted acc, n)
  | PageResp.err s :: _ => (CollectOutcome.failed s, n + 1)
  | PageResp.absent :: _ => (CollectOutcome.done acc, n + 1)
  | PageResp.page data next :: rest =>
    match next with
    | none => (CollectOutcome.done (acc ++ data), n + 1)
    | some c =>
      if c = "" then (CollectOutcome.done (acc ++ data), n + 1)
      else collect_go (acc ++ data) (n + 1) rest

/-- The function get_collectibles over an explicit response sequence: the loop outcome
and the number of pages requested. -/
def get_collectibles {α : Type} (reqs : List (PageResp α)) :
    CollectOutcome α × Nat :=
  collect_go [] 0 reqs

/-- A concrete collectible record, used at concrete inputs. -/
def sampleItem : CollectibleItem :=
  { assetId := 1, name := "A", recentAveragePrice := some 500 }

/-- A page response whose cursor is always present and truthy: the shape an
adversarial or malfunctioning upstream can keep producing. -/
def cursorPage : PageResp CollectibleItem :=
  PageResp.page [sampleItem] (some "c")

/-- Concrete collectible records for the 3-page pagination scenario. -/
def itemA : CollectibleItem :=
  { assetId := 1, name := "A", recentAveragePrice := some 100 }

/-- Second concrete collectible record. -/
def itemB : CollectibleItem :=
  { assetId := 2, name := "B", recentAveragePrice := some 300 }

/-- Third concrete collectible record (absent RAP). -/
def itemC : CollectibleItem :=
  { assetId := 3, name := "C", recentAveragePrice := none }

/- ===== Valuation cache =====
`roli_get_items` (main.py lines 340-349) over the module-level
`ROLI_ITEMS_CACHE`. -/

/-- One call to `roli_get_items`, with the cache state threaded explicitly
and the `roli_get` outcome of this call abstracted as `fetch`
(`Except.error s` embeds `roli_get` raising; `Except.ok none` embeds a
response that is falsy or lacks the `items` key; `Except.ok (some m)` a
response carrying the catalog `m`).  Returns the new cache state, the
call's own result (`Except.error` when the exception propagates), and how
many fetches the call performed. -/
def roli_get_items_step (cache : Option Catalog)
    (fetch : Except Nat (Option Catalog)) :
    Option Catalog × Except Nat Catalog × Nat :=
  match cache with
  | some m => (some m, Except.ok m, 0)
  | none =>
    match fetch with
    | Except.error s => (none, Except.error s, 1)
    | Except.ok none => (some [], Except.ok [], 1)
    | Except.ok (some m) => (some m, Except.ok m, 1)

/- ===== cmd_user (main.py lines 562-685) =====
The handler after argument validation: identity resolution
(`get_user_details_by_username`) in a try/except answering an error message,
a not-found answer when absent; then the three social-graph calls
`get_friends`/`get_followers`/`get_followings` issued bare (an exception
propagates out of the handler: no answer at all); then the Rolimons
playerinfo call inside `try ... except Exception: pass` (all
playerinfo-derived fields stay at their `None` defaults).  Rendering is
abstracted to the record of fields the answer would carry. -/

/-- The identity record `cmd_user` reads. -/
structure Identity where
  id : Int
  name : String
  displayName : String
deriving DecidableEq, Repr

/-- The fields `cmd_user` reads from the Rolimons playerinfo response. -/
structure PlayerInfo where
  premium : Option Bool
  playerPrivacyEnabled : Bool
  rap : Option Int
  value : Option Int
  lastOnline : Option Nat
deriving DecidableEq, Repr

/-- Outcomes of the sub-calls `cmd_user` issues, in program order.  An
`Except.error s` is the call raising with upstream status `s`; for the
identity, `Except.ok none` is the user being absent.  The playerinfo field
is `Except Nat (Option PlayerInfo)`: `Except.ok none` embeds a 200 response
whose body did not parse (the subsequent attribute access raises inside the
same try block). -/
structure SubcallResults where
  identity : Except Nat (Option Identity)
  friends : Except Nat Nat
  followers : Except Nat Nat
  followings : Except Nat Nat
  playerinfo : Except Nat (Option PlayerInfo)
deriving Repr

/-- The fields of the answer `cmd_user` composes (enrichment fields are
`none` when the corresponding line is omitted). -/
structure ProfileView where
  uid : Int
  friendsCount : Nat
  followersCount : Nat
  followingsCount : Nat
  premium : Option Bool
  invPublic : Option Bool
  rap : Option Int
  value : Option Int
  lastOnline : Option Nat
deriving DecidableEq, Repr

/-- What `cmd_user` produces: an error-text answer (identity call raised),
a not-found answer, an unhandled exception escaping the handler (no answer
at all), or the composed profile answer. -/
inductive CmdUserOutcome where
  | errorMessage : Nat → CmdUserOutcome
  | notFound : CmdUserOutcome
  | unhandled : Nat → CmdUserOutcome
  | profile : ProfileView → CmdUserOutcome
deriving DecidableEq, Repr

/-- The control flow of `cmd_user` (main.py lines 575-616) over the
sub-call outcomes. -/
def cmd_user_core (r : SubcallResults) : CmdUserOutcome :=
  match r.identity with
  | Except.error s => CmdUserOutcome.errorMessage s
  | Except.ok none => CmdUserOutcome.notFound
  | Except.ok (some u) =>
    match r.friends with
    | Except.error s => CmdUserOutcome.unhandled s
    | Except.ok fc =>
      match r.followers with
      | Except.error s => CmdUserOutcome.unhandled s
      | Except.ok foc =>
        match r.followings with
        | Except.error s => CmdUserOutcome.unhandled s
        | Except.ok fgc =>
          match r.playerinfo with
          | Except.error _ =>
            CmdUserOutcome.profile
              ⟨u.id, fc, foc, fgc, none, none, none, none, none⟩
          | Except.ok none =>
            CmdUserOutcome.profile
              ⟨u.id, fc, foc, fgc, none, none, none, none, none⟩
          | Except.ok (some p) =>
            CmdUserOutcome.profile
              ⟨u.id, fc, foc, fgc, p.premium,
               some (!p.playerPrivacyEnabled), p.rap, p.value,
               match p.lastOnline with
               | none => none
               | some ts => if ts = 0 then none else some ts⟩

/-- A concrete resolved identity, used at concrete inputs. -/
def sampleIdentity : Identity := { id := 42, name := "alice", displayName := "alice" }


/-! ## Theorems -/

/-- A successful `dictGet` lookup returns an entry of the list. -/
theorem dictGet_mem {l : List (String × List Int)} {key : String}
    {arr : List Int} (h : dictGet l key = some arr) : (key, arr) ∈ l := by
  induction l with
  | nil => simp [dictGet] at h
  | cons p rest ih =>
    obtain ⟨k, w⟩ := p
    unfold dictGet at h
    split at h
    · rename_i hk
      cases h
      exact hk ▸ List.mem_cons_self _ _
    · exact List.mem_cons_of_mem _ (ih h)

/-- On a catalog whose entries are empty or long enough for the value index,
the applied value computed by the code is exactly the spec's tie-break. -/
theorem applied_eq_spec (roli : Catalog) (aid rap : Int)
    (hwf : ∀ p ∈ roli, p.2 = [] ∨ 4 ≤ p.2.length) :
    applied_value roli aid rap = some (spec_tiebreak roli aid rap) := by
  cases roli with
  | nil => simp [applied_value, spec_tiebreak, catalog_value, dictGet, List.isEmpty]
  | cons p rest =>
    unfold applied_value spec_tiebreak catalog_value
    have hne : ((p :: rest : List (String × List Int)).isEmpty) = false := rfl
    rw [hne]
    simp only [Bool.false_eq_true, if_false]
    cases hg : dictGet (p :: rest) (toString aid) with
    | none => simp
    | some arr =>
      simp only [Option.some_bind]
      rcases hwf _ (dictGet_mem hg) with hnil | hlen
      · subst hnil; simp
      · have hlen2 : 4 ≤ arr.length := hlen
        have hne2 : arr.isEmpty = false := by
          cases arr with
          | nil => simp at hlen2
          | cons a t => rfl
        have h3 : 3 < arr.length := by omega
        have hw : arr[3]? = some arr[3] := List.getElem?_eq_getElem h3
        rw [hne2, hw]
        simp only [Bool.false_eq_true, if_false]
        split
        · rename_i hc
          rw [if_pos hc.2]
        · rename_i hc
          have hnp : ¬ (0 : Int) < arr[3] := fun hlt => hc ⟨by omega, hlt⟩
          rw [if_neg hnp]

/-- The per-item loop agrees with the spec tie-break item by item and sums
the totals, on a well-formed catalog. -/
theorem merge_items_spec (roli : Catalog) (items : List CollectibleItem)
    (hwf : ∀ p ∈ roli, p.2 = [] ∨ 4 ≤ p.2.length) :
    merge_items roli items =
      some (items.map
              (fun it => (it, spec_tiebreak roli it.assetId (rap_of it))),
            (items.map rap_of).sum,
            (items.map
              (fun it => spec_tiebreak roli it.assetId (rap_of it))).sum) := by
  induction items with
  | nil => simp [merge_items]
  | cons it rest ih =>
    unfold merge_items
    rw [applied_eq_spec roli _ _ hwf, ih]
    simp

/-- C1 counterexample: the claim says the applied value is never lower than
the item's recentAveragePrice, but for RAP 500 and a positive catalog value
100 the loop applies 100, which is lower. -/
theorem C1_cex :
    applied_value [("1", [0, 0, 0, 100])] 1 500 = some 100 ∧
      (100 : Int) < 500 := by decide

/-- C1 amended: whenever the per-item merge of compose_limiteds_text
computes an applied value, that value is nonzero whenever the item's RAP is
nonzero, and it is either the RAP itself (the fallback) or a strictly
positive catalog value — which the code applies even when it is lower than
the RAP. -/
theorem C1_amended (roli : Catalog) (aid rap v : Int)
    (h : applied_value roli aid rap = some v) :
    (rap ≠ 0 → v ≠ 0) ∧ (v = rap ∨ 0 < v) := by
  unfold applied_value at h
  split at h
  · cases h; exact ⟨fun hr => hr, Or.inl rfl⟩
  · split at h
    · cases h; exact ⟨fun hr => hr, Or.inl rfl⟩
    · rename_i arr _
      split at h
      · cases h; exact ⟨fun hr => hr, Or.inl rfl⟩
      · split at h
        · cases h
        · rename_i w hw
          split at h
          · cases h
            rename_i hcond
            exact ⟨fun _ => by omega, Or.inr hcond.2⟩
          · cases h; exact ⟨fun hr => hr, Or.inl rfl⟩

/-- C1 witness: with an empty catalog and RAP 500 the applied value is the
RAP and the amended properties hold there. -/
theorem C1_witness :
    applied_value [] 1 500 = some 500 ∧
      (((500 : Int) ≠ 0 → (500 : Int) ≠ 0) ∧
        ((500 : Int) = 500 ∨ (0 : Int) < 500)) :=
  ⟨by decide, C1_amended [] 1 500 500 (by decide)⟩

/-- C2: on a catalog whose entries are empty or carry the value index, the
per-item loop applies exactly the spec tie-break (catalog value when the
entry exists and its value is positive, otherwise the item's own RAP), the
holdings keep the item order, total RAP and total value are the sums of the
per-item RAPs and applied values; a catalog entry of 0 with RAP 500 yields
500, and RAP 0 with no catalog entry yields 0, not an error. -/
theorem C2_merge (roli : Catalog) (items : List CollectibleItem)
    (hwf : ∀ p ∈ roli, p.2 = [] ∨ 4 ≤ p.2.length) :
    merge_items roli items =
      some (items.map
              (fun it => (it, spec_tiebreak roli it.assetId (rap_of it))),
            (items.map rap_of).sum,
            (items.map
              (fun it => spec_tiebreak roli it.assetId (rap_of it))).sum) ∧
      applied_value [("1", [0, 0, 0, 0])] 1 500 = some 500 ∧
      applied_value [] 2 0 = some 0 :=
  ⟨merge_items_spec roli items hwf, by decide, by decide⟩

/-- C2 witness: the merge at a one-item inventory against a one-entry
catalog whose value field is 0 falls back to the RAP 500. -/
theorem C2_witness :
    (∀ p ∈ ([("1", [0, 0, 0, 0])] : Catalog), p.2 = [] ∨ 4 ≤ p.2.length) ∧
      (merge_items [("1", [0, 0, 0, 0])]
          [{ assetId := 1, name := "A", recentAveragePrice := some 500 }] =
        some ([({ assetId := 1, name := "A",
                  recentAveragePrice := some 500 }, 500)], 500, 500) ∧
        applied_value [("1", [0, 0, 0, 0])] 1 500 = some 500 ∧
        applied_value [] 2 0 = some 0) :=
  ⟨by decide,
   C2_merge [("1", [0, 0, 0, 0])]
     [{ assetId := 1, name := "A", recentAveragePrice := some 500 }]
     (by decide)⟩

/-- Consuming a block of pages that all carry a truthy cursor extends the
accumulator with their records in order and counts one request per page. -/
theorem collect_go_pages {α : Type} (ps : List (List α × String))
    (h : ∀ p ∈ ps, p.2 ≠ "") (acc : List α) (n : Nat)
    (rest : List (PageResp α)) :
    collect_go acc n (ps.map (fun p => PageResp.page p.1 (some p.2)) ++ rest)
      = collect_go (acc ++ (ps.map Prod.fst).flatten) (n + ps.length) rest := by
  induction ps generalizing acc n with
  | nil => simp
  | cons p tail ih =>
    obtain ⟨items, c⟩ := p
    have hc : ¬ (c = "") := h _ (List.mem_cons_self _ _)
    simp only [List.map_cons, List.cons_append, collect_go, List.append_eq]
    rw [if_neg hc]
    rw [ih (fun q hq => h _ (List.mem_cons_of_mem _ hq)) (acc ++ items) (n + 1)]
    have e1 : (acc ++ items) ++ (tail.map Prod.fst).flatten
        = acc ++ ((items, c) :: tail |>.map Prod.fst).flatten := by
      simp [List.append_assoc]
    have e2 : n + 1 + tail.length = n + ((items, c) :: tail).length := by
      simp; omega
    rw [e1, e2]
    simp only [List.map_cons]

/-- C6: over a response sequence of cursor-chained pages whose final page
has a null cursor, get_collectibles returns exactly the concatenation of
the pages' records in page order, and requests exactly one page per
response up to and including the null-cursor page — nothing afterwards,
whatever responses would follow. -/
theorem C6_pages {α : Type} (ps : List (List α × String)) (last : List α)
    (extra : List (PageResp α)) (h : ∀ p ∈ ps, p.2 ≠ "") :
    get_collectibles
        (ps.map (fun p => PageResp.page p.1 (some p.2))
          ++ PageResp.page last none :: extra)
      = (CollectOutcome.done ((ps.map Prod.fst).flatten ++ last),
         ps.length + 1) := by
  unfold get_collectibles
  rw [collect_go_pages ps h [] 0]
  simp [collect_go]

/-- C6 witness: a mocked 3-page cursor chain followed by a would-be 4th
response: the result is the concatenation of the three pages and exactly 3
requests are issued. -/
theorem C6_witness :
    (∀ p ∈ ([([itemA], "c1"), ([itemB], "c2")] :
        List (List CollectibleItem × String)), p.2 ≠ "") ∧
      get_collectibles
          [PageResp.page [itemA] (some "c1"),
           PageResp.page [itemB] (some "c2"),
           PageResp.page [itemC] none,
           PageResp.absent]
        = (CollectOutcome.done [itemA, itemB, itemC], 3) :=
  ⟨by decide,
   C6_pages [([itemA], "c1"), ([itemB], "c2")] [itemC]
     [PageResp.absent] (by decide)⟩

/-- C3 counterexample: when the second page fetch fails with status 500,
get_collectibles aborts with the bare propagated error — the outcome is
`failed 500`, which hands no records to the caller, so the first page's
record is dropped rather than carried in a partial-failure result. -/
theorem C3_cex :
    get_collectibles [PageResp.page [sampleItem] (some "c"), PageResp.err 500]
        = (CollectOutcome.failed 500, 2) ∧
      recordsOf ((get_collectibles
          [PageResp.page [sampleItem] (some "c"), PageResp.err 500]).1)
        = none :=
  ⟨by decide, by decide⟩

/-- C3 amended: a page fetch failing with an upstream error aborts the whole
collection by propagating that error (with its status); the records
collected from the pages before the failure are discarded — they are not
attached to the failure outcome. -/
theorem C3_amended {α : Type} (ps : List (List α × String)) (s : Nat)
    (rest : List (PageResp α)) (h : ∀ p ∈ ps, p.2 ≠ "") :
    get_collectibles (ps.map (fun p => PageResp.page p.1 (some p.2))
        ++ PageResp.err s :: rest)
      = (CollectOutcome.failed s, ps.length + 1) ∧
      recordsOf ((get_collectibles
          (ps.map (fun p => PageResp.page p.1 (some p.2))
            ++ PageResp.err s :: rest)).1) = none := by
  have e : get_collectibles (ps.map (fun p => PageResp.page p.1 (some p.2))
      ++ PageResp.err s :: rest) = (CollectOutcome.failed s, ps.length + 1) := by
    unfold get_collectibles
    rw [collect_go_pages ps h [] 0]
    simp [collect_go]
  exact ⟨e, by rw [e]; rfl⟩

/-- C3 witness: one successful page then a 500 — the outcome is the bare
failure and carries no records. -/
theorem C3_witness :
    (∀ p ∈ ([([sampleItem], "c")] : List (List CollectibleItem × String)),
        p.2 ≠ "") ∧
      (get_collectibles [PageResp.page [sampleItem] (some "c"),
          PageResp.err 500] = (CollectOutcome.failed 500, 2) ∧
        recordsOf ((get_collectibles [PageResp.page [sampleItem] (some "c"),
          PageResp.err 500]).1) = none) :=
  ⟨by decide, C3_amended [([sampleItem], "c")] 500 [] (by decide)⟩

/-- A run of `m` responses that all carry the cursor `"c"` is consumed
entirely: one request per response, the loop still going afterwards. -/
theorem collect_go_cursor (m : Nat) (acc : List CollectibleItem) (n : Nat) :
    collect_go acc n (List.replicate m cursorPage)
      = (CollectOutcome.exhausted (acc ++ List.replicate m sampleItem),
         n + m) := by
  induction m generalizing acc n with
  | zero => simp [collect_go]
  | succ k ih =>
    rw [List.replicate_succ]
    have step :
        collect_go acc n (cursorPage :: List.replicate k cursorPage)
          = collect_go (acc ++ [sampleItem]) (n + 1)
              (List.replicate k cursorPage) := by
      show collect_go acc n
          (PageResp.page [sampleItem] (some "c") :: List.replicate k cursorPage)
        = _
      simp only [collect_go]
      rw [if_neg (by decide : ¬(("c" : String) = ""))]
    rw [step, ih (acc ++ [sampleItem]) (n + 1)]
    have e1 : (acc ++ [sampleItem]) ++ List.replicate k sampleItem
        = acc ++ List.replicate (k + 1) sampleItem := by
      simp [List.replicate_succ, List.append_assoc]
    have e2 : n + 1 + k = n + (k + 1) := by omega
    rw [e1, e2]

/-- C4 counterexample: fed 1001 responses that each carry a next cursor
(1001 pages of page size 100 is past the spec's sane-bound example of
100,000 records), get_collectibles issues all 1001 requests and the loop is
still awaiting a further page — no page cap ever stops it. -/
theorem C4_cex :
    get_collectibles (List.replicate 1001 cursorPage)
      = (CollectOutcome.exhausted (List.replicate 1001 sampleItem), 1001) := by
  have h := collect_go_cursor 1001 [] 0
  rw [List.nil_append, Nat.zero_add] at h
  exact h

/-- C4 amended: get_collectibles imposes no bound on the number of pages: for
every n, a sequence of n responses that all carry a non-null cursor makes it
issue exactly n requests and leaves the loop ready to issue another — the
only terminations are a falsy page, a falsy cursor, or a raising fetch. -/
theorem C4_amended (n : Nat) :
    get_collectibles (List.replicate n cursorPage)
      = (CollectOutcome.exhausted (List.replicate n sampleItem), n) := by
  have h := collect_go_cursor n [] 0
  rw [List.nil_append, Nat.zero_add] at h
  exact h

/-- C5 counterexample: a 404 through the valuation-service client roli_get
is classified as an upstream error recording status 404, not as the Absent
outcome that RobloxAPI.req produces for the same status. -/
theorem C5_cex :
    roli_classify 404 (none : Option Unit) = Except.error 404 ∧
      req_classify 404 (none : Option Unit) = Except.ok none :=
  ⟨rfl, rfl⟩

/-- C5 amended: RobloxAPI.req classifies 404 as Absent and any other status
at least 400 as an UpstreamError recording the status; roli_get classifies
every status other than 200 — including 404 — as an UpstreamError recording
the status. -/
theorem C5_amended (s : Nat) {α : Type} (d : Option α) (h4 : 400 ≤ s)
    (hne : s ≠ 404) :
    req_classify 404 d = Except.ok none ∧
      req_classify s d = Except.error s ∧
      roli_classify 404 d = Except.error 404 ∧
      roli_classify s d = Except.error s := by
  refine ⟨rfl, ?_, rfl, ?_⟩
  · unfold req_classify
    rw [if_neg hne, if_pos h4]
  · unfold roli_classify
    rw [if_pos (by omega : s ≠ 200)]

/-- C5 witness: the classifications at statuses 404 and 500. -/
theorem C5_witness :
    (400 ≤ 500 ∧ (500 : Nat) ≠ 404) ∧
      (req_classify 404 (none : Option Unit) = Except.ok none ∧
        req_classify 500 (none : Option Unit) = Except.error 500 ∧
        roli_classify 404 (none : Option Unit) = Except.error 404 ∧
        roli_classify 500 (none : Option Unit) = Except.error 500) :=
  ⟨⟨by decide, by decide⟩, C5_amended 500 none (by decide) (by decide)⟩

/-- C7 counterexample: with the identity resolved and the friends call
failing with status 500, cmd_user produces no result at all — the exception
escapes the handler (`unhandled`), instead of a profile with the social
fields omitted as the claim states. -/
theorem C7_cex :
    cmd_user_core
        { identity := Except.ok (some sampleIdentity),
          friends := Except.error 500,
          followers := Except.ok 0,
          followings := Except.ok 0,
          playerinfo := Except.error 0 }
      = CmdUserOutcome.unhandled 500 := rfl

/-- C7 amended: an identity-resolution failure fails the whole operation
(error answer or not-found answer); a playerinfo/valuation failure degrades
the result by omission of the enrichment fields; but a failure of any of
the friends, followers or followings calls aborts the whole operation with
no result at all (unhandled exception), rather than degrading it. -/
theorem C7_amended (s : Nat) (u : Identity) (fc foc fgc : Nat)
    (fr fo fg : Except Nat Nat) (pinfo : Except Nat (Option PlayerInfo))
    (p : PlayerInfo) :
    cmd_user_core ⟨Except.error s, fr, fo, fg, pinfo⟩
        = CmdUserOutcome.errorMessage s ∧
      cmd_user_core ⟨Except.ok none, fr, fo, fg, pinfo⟩
        = CmdUserOutcome.notFound ∧
      cmd_user_core ⟨Except.ok (some u), Except.error s, fo, fg, pinfo⟩
        = CmdUserOutcome.unhandled s ∧
      cmd_user_core
          ⟨Except.ok (some u), Except.ok fc, Except.error s, fg, pinfo⟩
        = CmdUserOutcome.unhandled s ∧
      cmd_user_core
          ⟨Except.ok (some u), Except.ok fc, Except.ok foc, Except.error s,
           pinfo⟩
        = CmdUserOutcome.unhandled s ∧
      cmd_user_core
          ⟨Except.ok (some u), Except.ok fc, Except.ok foc, Except.ok fgc,
           Except.error s⟩
        = CmdUserOutcome.profile
            ⟨u.id, fc, foc, fgc, none, none, none, none, none⟩ ∧
      cmd_user_core
          ⟨Except.ok (some u), Except.ok fc, Except.ok foc, Except.ok fgc,
           Except.ok (some p)⟩
        = CmdUserOutcome.profile
            ⟨u.id, fc, foc, fgc, p.premium, some (!p.playerPrivacyEnabled),
             p.rap, p.value,
             match p.lastOnline with
             | none => none
             | some ts => if ts = 0 then none else some ts⟩ :=
  ⟨rfl, rfl, rfl, rfl, rfl, rfl, rfl⟩

/-- C8: the first access to the item-catalog cache performs exactly one
fetch; any access with a populated cache performs zero fetches and returns
that same mapping unchanged; a failing first fetch leaves the cache
unpopulated and propagates the error, so the next access fetches again. -/
theorem C8_cache (f f2 : Except Nat (Option Catalog)) (m : Catalog)
    (s : Nat) :
    (roli_get_items_step none f).2.2 = 1 ∧
      roli_get_items_step (some m) f2 = (some m, Except.ok m, 0) ∧
      roli_get_items_step none (Except.error s)
        = (none, Except.error s, 1) ∧
      (roli_get_items_step
          (roli_get_items_step none (Except.error s)).1 f2).2.2 = 1 := by
  refine ⟨?_, rfl, rfl, ?_⟩
  · cases f with
    | error s2 => rfl
    | ok d => cases d with | none => rfl | some m2 => rfl
  · cases f2 with
    | error s2 => rfl
    | ok d => cases d with | none => rfl | some m2 => rfl

/-- A character of `replaceChar s p r` is a character of the replacement
text, or a character of `s` other than the replaced one. -/
theorem mem_replaceChar {c : Char} {s : List Char} {p : Char}
    {r : List Char} (h : c ∈ replaceChar s p r) :
    c ∈ r ∨ (c ∈ s ∧ c ≠ p) := by
  unfold replaceChar at h
  rcases List.mem_flatten.mp h with ⟨l, hl, hcl⟩
  rcases List.mem_map.mp hl with ⟨d, hds, hdl⟩
  by_cases hdp : d = p
  · left
    rw [hdp, if_pos rfl] at hdl
    exact hdl.symm ▸ hcl
  · right
    rw [if_neg hdp] at hdl
    have hcd : c = d := by
      have h2 : c ∈ [d] := hdl.symm ▸ hcl
      simpa using h2
    exact ⟨hcd ▸ hds, hcd ▸ hdp⟩

/-- C9: esc never leaves a less-than or greater-than character in its
output (so interpolated user text cannot open or close an HTML tag), and
each of the three special characters is rewritten to its HTML entity. -/
theorem C9_esc (s : List Char) :
    '<' ∉ esc s ∧ '>' ∉ esc s ∧
      esc ['&', '<', '>']
        = ['&', 'a', 'm', 'p', ';', '&', 'l', 't', ';',
           '&', 'g', 't', ';'] := by
  refine ⟨?_, ?_, by decide⟩
  · intro h
    rcases mem_replaceChar h with h1 | ⟨h1, _⟩
    · exact absurd h1 (by decide)
    · rcases mem_replaceChar h1 with h2 | ⟨_, h2⟩
      · exact absurd h2 (by decide)
      · exact h2 rfl
  · intro h
    rcases mem_replaceChar h with h1 | ⟨_, h1⟩
    · exact absurd h1 (by decide)
    · exact h1 rfl

/-- C9 witness: esc applied to a concrete string with a tag opener. -/
theorem C9_witness :
    '<' ∉ esc ['a', '<', '&'] ∧ '>' ∉ esc ['a', '<', '&'] :=
  ⟨(C9_esc ['a', '<', '&']).1, (C9_esc ['a', '<', '&']).2.1⟩

/-- While fewer ids than the cap have been collected, the token loop of
parse_ids returns the collected prefix followed by the digit tokens' values
up to the remaining budget. -/
theorem parse_ids_go_eq (mc : Nat) (ts : List (List Char)) :
    ∀ acc : List Int, acc.length < mc →
      parse_ids_go mc acc ts
        = acc ++ ((ts.filter isDigitToken).map intOfDigits).take
            (mc - acc.length) := by
  induction ts with
  | nil => intro acc h; simp [parse_ids_go]
  | cons t rest ih =>
    intro acc h
    show (if mc ≤ (py_append acc t).length then py_append acc t
          else parse_ids_go mc (py_append acc t) rest) = _
    by_cases hd : isDigitToken t
    · have hap : py_append acc t = acc ++ [intOfDigits t] := by
        simp [py_append, hd]
      rw [hap, List.filter_cons_of_pos hd, List.map_cons]
      simp only [List.length_append, List.length_cons, List.length_nil]
      by_cases hstop : mc ≤ acc.length + (0 + 1)
      · rw [if_pos hstop]
        have hmc : mc - acc.length = 1 := by omega
        rw [hmc, List.take_succ_cons, List.take_zero]
      · rw [if_neg hstop]
        rw [ih (acc ++ [intOfDigits t]) (by simp; omega)]
        have harith : mc - (acc ++ [intOfDigits t]).length
            = mc - acc.length - 1 := by simp; omega
        have hsucc : mc - acc.length = (mc - acc.length - 1) + 1 := by
          omega
        rw [harith, hsucc, List.take_succ_cons]
        simp [List.append_assoc]
    · have hap : py_append acc t = acc := by simp [py_append, hd]
      have hnd : ¬ (isDigitToken t = true) := hd
      rw [hap, if_neg (by omega : ¬ mc ≤ acc.length),
        List.filter_cons_of_neg (by simpa using hnd)]
      exact ih acc h

/-- C10 counterexample: with max_count 0 and the input "5", parse_ids
returns one id — more than max_count — because the cap is only tested
after a token has already been appended. -/
theorem C10_cex :
    parse_ids ['5'] 0 = [(5 : Int)] ∧ 0 < (parse_ids ['5'] 0).length :=
  ⟨by decide, by decide⟩

/-- C10 amended: for every max_count of at least 1, parse_ids returns
exactly the first max_count values of the digit-only tokens (in token
order, after splitting on commas and whitespace, silently skipping
non-digit tokens), hence at most max_count ids, each non-negative. -/
theorem C10_amended (raw : List Char) (mc : Nat) (h : 1 ≤ mc) :
    parse_ids raw mc
        = (((wsTokens (commaToSpace raw)).filter isDigitToken).map
            intOfDigits).take mc ∧
      (parse_ids raw mc).length ≤ mc ∧
      ∀ x ∈ parse_ids raw mc, 0 ≤ x := by
  have e : parse_ids raw mc
      = (((wsTokens (commaToSpace raw)).filter isDigitToken).map
          intOfDigits).take mc := by
    unfold parse_ids
    rw [parse_ids_go_eq mc _ [] (by simp only [List.length_nil]; omega)]
    simp
  refine ⟨e, ?_, ?_⟩
  · rw [e]; exact List.length_take_le _ _
  · intro x hx
    rw [e] at hx
    have hx2 := List.take_subset _ _ hx
    rcases List.mem_map.mp hx2 with ⟨t, _, rfl⟩
    exact Int.natCast_nonneg _

/-- C10 witness: the input "1,x 2" with max_count 1 yields exactly the
single id 1. -/
theorem C10_witness :
    1 ≤ 1 ∧
      (parse_ids ['1', ',', 'x', ' ', '2'] 1
          = (((wsTokens (commaToSpace ['1', ',', 'x', ' ', '2'])).filter
              isDigitToken).map intOfDigits).take 1 ∧
        (parse_ids ['1', ',', 'x', ' ', '2'] 1).length ≤ 1 ∧
        ∀ x ∈ parse_ids ['1', ',', 'x', ' ', '2'] 1, 0 ≤ x) :=
  ⟨by decide, C10_amended ['1', ',', 'x', ' ', '2'] 1 (by decide)⟩
